import Mathlib

/-!
Verification of the WaterBuddy hydration tracker (src/WaterBuddy.py).

The Python source talks to an external Firebase REST store through the
helpers `fb_get` / `fb_post` / `fb_patch` / `requests.delete`.  The store
itself is not part of the repository; per the spec (§6) it is a keyed
get/set/append/delete service, and the accessor functions collapse every
failure (network error, non-2xx status, malformed body) into `None` /
`False`.  We therefore embed the accessors as state transformers over an
explicit per-user day record, parameterised by a `StoreEnv` of per-call
availability flags: a read that fails behaves exactly like `fb_get`
returning `None`, a patch that fails leaves the store unchanged and
returns `False`, matching the source's exception handling.

Calendar dates are represented by their day ordinal (an integer); the
source keys the store by ISO-8601 date strings, whose lexicographic
order used by `sorted()` in `get_history` agrees with the ordinal order,
and `date.today() - timedelta(days=i)` is ordinal subtraction.
-/

namespace WaterBuddy

/-- A JSON scalar as stored in Firebase and returned by `fb_get`:
`null`, an integer, a string, or a boolean.  (The day-intake and goal
fields the claims are about only ever hold scalars.) -/
inductive JVal where
  | jnull : JVal
  | jint : ℤ → JVal
  | jstr : String → JVal
  | jbool : Bool → JVal
  deriving Repr, DecidableEq

/-- Python `int(x)` on a fetched JSON scalar: succeeds on integers,
booleans (`int(True) = 1`) and numeric strings, raises (modelled as
`none`) on `None` and non-numeric strings. -/
def pyInt : JVal → Option ℤ
  | .jnull => none
  | .jint n => some n
  | .jstr s => s.toInt?
  | .jbool b => some (if b then 1 else 0)

/-- One timestamped entry of `days/<date>/log_entries`
(`{"amount_ml": ..., "timestamp": ...}`, WaterBuddy.py lines 179-182). -/
structure LogEntry where
  amount_ml : ℤ
  timestamp : String
  deriving Repr, DecidableEq

/-- The store's record under `users/<uid>/days/<TODAY>`: the raw value at
the `intake` key (`none` when absent) and the `log_entries` sub-list. -/
structure DayState where
  intake : Option JVal
  logEntries : List LogEntry
  deriving Repr, DecidableEq

/-- Availability of the store for the individual HTTP calls an accessor
makes: `getOk` — `fb_get` reaches the store and gets a 200; `patchOk` —
`fb_patch` succeeds (2xx, returns `True`); `postOk` — `fb_post` succeeds;
`deleteThrows` — the raw `requests.delete` in `reset_intake` raises a
`RequestException`.  A failed write leaves the store unchanged. -/
structure StoreEnv where
  getOk : Bool
  patchOk : Bool
  postOk : Bool
  deleteThrows : Bool
  deriving Repr, DecidableEq

/-- `fb_get` of `users/<uid>/days/<TODAY>/intake` (WaterBuddy.py lines
57-63): the raw stored value on success, `None` on absence or on any
failure. -/
def fb_get_intake (env : StoreEnv) (s : DayState) : Option JVal :=
  if env.getOk then s.intake else none

/-- `get_intake` (WaterBuddy.py lines 158-163): fetch today's `intake`
value; `int(raw) if raw is not None else 0`, any exception giving 0. -/
def get_intake (env : StoreEnv) (s : DayState) : ℤ :=
  match fb_get_intake env s with
  | none => 0
  | some v => (pyInt v).getD 0

/-- `update_intake` (WaterBuddy.py lines 172-174): clamp the amount with
`max(0, amount)`, patch it into `days/<TODAY>` (a merge, so
`log_entries` is untouched), and return the patch's success. -/
def update_intake (env : StoreEnv) (s : DayState) (amount : ℤ) :
    DayState × Bool :=
  let validated := max 0 amount
  if env.patchOk then ({ s with intake := some (.jint validated) }, true)
  else (s, false)

/-- `log_water_entry` (WaterBuddy.py lines 176-184): return `False` at
once when `amount <= 0`; otherwise post one timestamped entry to
`days/<TODAY>/log_entries` and return whether the post succeeded. -/
def log_water_entry (env : StoreEnv) (s : DayState) (amount : ℤ)
    (timestamp : String) : DayState × Bool :=
  if amount ≤ 0 then (s, false)
  else if env.postOk then
    ({ s with logEntries := s.logEntries ++ [⟨amount, timestamp⟩] }, true)
  else (s, false)

/-- `reset_intake` (WaterBuddy.py lines 186-194): patch
`{"intake": 0}` into `days/<TODAY>`, IGNORING the patch's boolean
result; then issue a raw `requests.delete` on `log_entries`, returning
`True` when it does not raise and `False` when it does.  The source
never inspects the DELETE's HTTP status, so whether the store actually
removed the `log_entries` node is invisible to the caller: the extra
flag `deleteApplied` says whether the non-raising DELETE got a 2xx and
the store removed the node (a rejected DELETE leaves it in place), and
the returned boolean reflects only whether the call raised. -/
def reset_intake (env : StoreEnv) (deleteApplied : Bool) (s : DayState) :
    DayState × Bool :=
  let s1 := if env.patchOk then { s with intake := some (.jint 0) } else s
  if env.deleteThrows then (s1, false)
  else if deleteApplied then ({ s1 with logEntries := [] }, true)
  else (s1, true)

/-- The value `get_history` computes for one date from the raw fetched
`intake` (WaterBuddy.py lines 202-207): `int(raw)` when present and
parseable, 0 on absence, fetch failure or parse failure, then clamped
with `max(0, intake_value)`. -/
def historyValue (raw : Option JVal) : ℤ :=
  max 0 (match raw with
         | none => 0
         | some v => (pyInt v).getD 0)

/-- The date keys `get_history` iterates over:
`(today_date - timedelta(days=i)).isoformat()` for `i` in
`range(days)`, i.e. today, yesterday, ..., `today - (days - 1)`. -/
def historyKeys (today : ℤ) (days : ℕ) : List ℤ :=
  (List.range days).map (fun i : ℕ => today - (i : ℤ))

/-- `get_history` (WaterBuddy.py lines 196-208): for `i` in
`range(days)` fetch `days/<today - i days>/intake` by an independent
`fb_get` (the per-date oracle `fetch`, `none` meaning absent or that
one read failed), build the date→value table, and return it ordered by
ascending date key (the `sorted(history_data.keys())` comprehension;
the keys are distinct so the dict keeps one entry per date, and each
value depends only on its own date's fetch). -/
def get_history (fetch : ℤ → Option JVal) (today : ℤ) (days : ℕ) :
    List (ℤ × ℤ) :=
  (List.insertionSort (· ≤ ·) (historyKeys today days)).map
    (fun d => (d, historyValue (fetch d)))

/-- The percent computation of `view_dashboard` (WaterBuddy.py line
1141): `percent = min(intake / goal * 100, 100)`.  There is no guard on
`goal`: when `goal = 0` the division raises `ZeroDivisionError`
(modelled as `none`).  Arithmetic is over ℚ; the quoted example values
are exact in the source's binary floating point as well. -/
def view_dashboard_percent (intake goal : ℚ) : Option ℚ :=
  if goal = 0 then none else some (min (intake / goal * 100) 100)

/-- The clamp `render_bottle` applies to its argument (WaterBuddy.py
line 277): `percent = min(max(percent, 0), 100)`.  (The SVG markup built
from the clamped value is presentation and is not modelled.) -/
def render_bottle_clamp (percent : ℚ) : ℚ :=
  min (max percent 0) 100

/-- The percent of goal actually displayed: `view_dashboard` line 1141
composed with the clamp of `render_bottle` (`view_dashboard` passes
`percent` to `render_bottle` at line 1115). -/
def displayed_percent (intake goal : ℚ) : Option ℚ :=
  (view_dashboard_percent intake goal).map render_bottle_clamp

/-- The spec's §4.4 percent function, stated from the spec's words for
comparison with `displayed_percent`:
`clamp(intake/goal * 100, 0, 100)` when `goal > 0`, else 0. -/
def percent_of_goal_spec (intake goal : ℚ) : ℚ :=
  if 0 < goal then min (max (intake / goal * 100) 0) 100 else 0

/-- `AGE_GROUP_DEFAULTS` (WaterBuddy.py lines 25-30). -/
def AGE_GROUP_DEFAULTS : List (String × ℤ) :=
  [("6-12", 1600), ("13-18", 2000), ("19-50", 2500), ("65+", 2000)]

/-- `AGE_GROUP_DEFAULTS.get(age_group, 2500)` (WaterBuddy.py line 144). -/
def ageGroupDefault (age_group : String) : ℤ :=
  ((AGE_GROUP_DEFAULTS.find? (fun p => p.1 == age_group)).map
    (fun p => p.2)).getD 2500

/-- The raw JSON object at `users/<uid>/profile`, each field optional
(absent keys are served through `dict.get` defaults). -/
structure ProfileNode where
  age_group : Option String
  user_goal_ml : Option JVal
  theme : Option String
  deriving Repr, DecidableEq

/-- The profile dictionary `get_profile` returns. -/
structure Profile where
  age_group : String
  user_goal_ml : ℤ
  theme : String
  deriving Repr, DecidableEq

/-- `fb_get` of `users/<uid>/profile`: the stored node on success,
`None` (then `or {}` — the empty node) when the record is absent or the
store unreachable. -/
def fetch_profile (getOk : Bool) (node : Option ProfileNode) :
    Option ProfileNode :=
  if getOk then node else none

/-- `get_profile` (WaterBuddy.py lines 141-153): `fb_get(...) or {}`,
then `age_group` defaulting to `"19-50"`, `user_goal_ml` defaulting to
`AGE_GROUP_DEFAULTS.get(age_group, 2500)` and coerced by `int(...)`
with 2500 on failure, and `theme` defaulting to `"Light"`. -/
def get_profile (raw : Option ProfileNode) : Profile :=
  let profile := raw.getD ⟨none, none, none⟩
  let age_group := profile.age_group.getD "19-50"
  let goalRaw := profile.user_goal_ml.getD (.jint (ageGroupDefault age_group))
  let goal := (pyInt goalRaw).getD 2500
  ⟨age_group, goal, profile.theme.getD "Light"⟩

/-- A stored user record (`users/<uid>`), per the signup payload
(WaterBuddy.py lines 103-112). -/
structure UserRec where
  username : String
  password : String
  created_at : String
  profile : Profile
  deriving Repr, DecidableEq

/-- `find_user` (WaterBuddy.py lines 81-88): fetch all of `users` (a
key → record table in iteration order; `avail = false` is `fb_get`
failing, which the `isinstance` guard turns into "no user found") and
return the first record whose `username` equals the argument exactly
(case-sensitive `==`). -/
def find_user (avail : Bool) (store : List (String × UserRec))
    (username : String) : Option (String × UserRec) :=
  if avail then store.find? (fun p => p.2.username == username) else none

/-- The outcome of `create_user`: Python `None`, the `"EXISTS"`
sentinel, the generated uid on success, or `"NETWORK_ERROR"`. -/
inductive CreateResult where
  | noneRes : CreateResult
  | existsRes : CreateResult
  | created : String → CreateResult
  | networkError : CreateResult
  deriving Repr, DecidableEq

/-- The outcome of the raw `requests.post` in `create_user`
(WaterBuddy.py lines 115-133): 2xx with a generated key, a non-2xx
status, or a raised `RequestException`. -/
inductive PostResult where
  | ok : String → PostResult
  | httpFail : PostResult
  | netFail : PostResult
  deriving Repr, DecidableEq

/-- The signup payload (WaterBuddy.py lines 102-112): the given
credentials, today's date, and the default profile
`{"age_group": "19-50", "user_goal_ml": AGE_GROUP_DEFAULTS["19-50"],
"theme": "Light"}`. -/
def newUserRec (username password today : String) : UserRec :=
  ⟨username, password, today, ⟨"19-50", ageGroupDefault "19-50", "Light"⟩⟩

/-- Steps 3-4 of `create_user` (WaterBuddy.py lines 114-133): POST the
payload to the `users` node; on 2xx return the generated key (the store
now holds the new record under it), on a non-2xx status return `None`,
on a network exception return `"NETWORK_ERROR"`; a failed post writes
nothing. -/
def attempt_create (post : PostResult) (store : List (String × UserRec))
    (rec : UserRec) : CreateResult × List (String × UserRec) :=
  match post with
  | .ok key => (.created key, store ++ [(key, rec)])
  | .httpFail => (.noneRes, store)
  | .netFail => (.networkError, store)

/-- `create_user` (WaterBuddy.py lines 90-133): return `None` when the
username or password is empty (`if not username or not password`);
return `"EXISTS"` when `find_user` yields a truthy uid (Python
truthiness: `None` and `""` both fall through); otherwise attempt the
POST.  The returned pair is (result, store after the call). -/
def create_user (avail : Bool) (post : PostResult)
    (store : List (String × UserRec)) (username password today : String) :
    CreateResult × List (String × UserRec) :=
  if username = "" ∨ password = "" then (.noneRes, store)
  else
    match find_user avail store username with
    | some (uid, _) =>
        if uid = "" then attempt_create post store (newUserRec username password today)
        else (.existsRes, store)
    | none => attempt_create post store (newUserRec username password today)

end WaterBuddy

namespace WaterBuddy

/-- **C1.** For every day state, every `ml ≥ 0`, when the store performs
the patch and the read faithfully, `update_intake` with `ml` followed by
`get_intake` returns exactly `ml`. -/
theorem c1_set_get_roundtrip (env : StoreEnv) (s : DayState) (ml : ℤ)
    (h0 : 0 ≤ ml) (hg : env.getOk = true) (hp : env.patchOk = true) :
    get_intake env (update_intake env s ml).1 = ml := by
  simp [update_intake, get_intake, fb_get_intake, hp, hg, pyInt,
    max_eq_right h0]

/-- Witness for C1 at `ml = 250` on an empty day record with a fully
available store. -/
theorem c1_set_get_roundtrip_witness :
    get_intake ⟨true, true, true, false⟩
      (update_intake ⟨true, true, true, false⟩ ⟨none, []⟩ 250).1 = 250 :=
  c1_set_get_roundtrip ⟨true, true, true, false⟩ ⟨none, []⟩ 250
    (by decide) rfl rfl

/-- **C5.** For every `ml < 0`, `update_intake` behaves exactly like
`update_intake` with 0 — the amount is clamped by `max(0, ml)` before
the write, so the stored value is never negative — and the call returns
whether the patch succeeded. -/
theorem c5_update_intake_clamps (env : StoreEnv) (s : DayState) (ml : ℤ)
    (h : ml < 0) :
    update_intake env s ml = update_intake env s 0 ∧
    (update_intake env s ml).2 = env.patchOk := by
  have hmax : max 0 ml = 0 := max_eq_left (le_of_lt h)
  constructor
  · simp [update_intake, hmax]
  · cases hpk : env.patchOk <;> simp [update_intake, hmax, hpk]

/-- Witness for C5 at `ml = -300` with an available store. -/
theorem c5_update_intake_clamps_witness :
    update_intake ⟨true, true, true, false⟩ ⟨some (.jint 7), []⟩ (-300) =
      update_intake ⟨true, true, true, false⟩ ⟨some (.jint 7), []⟩ 0 ∧
    (update_intake ⟨true, true, true, false⟩ ⟨some (.jint 7), []⟩ (-300)).2 =
      (⟨true, true, true, false⟩ : StoreEnv).patchOk :=
  c5_update_intake_clamps ⟨true, true, true, false⟩ ⟨some (.jint 7), []⟩
    (-300) (by decide)

/-- **C6.** `log_water_entry` returns `False` and leaves the store
untouched when `amount ≤ 0`; when `amount > 0` it appends exactly one
timestamped entry to today's `log_entries` and returns whether the post
succeeded; and in every case it leaves the `intake` accumulator
unchanged. -/
theorem c6_log_water_entry (env : StoreEnv) (s : DayState) (amount : ℤ)
    (ts : String) :
    (amount ≤ 0 → log_water_entry env s amount ts = (s, false)) ∧
    (0 < amount → log_water_entry env s amount ts =
      if env.postOk then
        ({ s with logEntries := s.logEntries ++ [⟨amount, ts⟩] }, true)
      else (s, false)) ∧
    (log_water_entry env s amount ts).1.intake = s.intake := by
  refine ⟨fun hle => by simp [log_water_entry, hle], fun hpos => ?_, ?_⟩
  · simp [log_water_entry, not_le.mpr hpos]
  · by_cases hle : amount ≤ 0
    · simp [log_water_entry, hle]
    · cases hpk : env.postOk <;> simp [log_water_entry, hle, hpk]

/-- Witness for C6: a non-positive amount is rejected with no write. -/
theorem c6_log_water_entry_witness :
    log_water_entry ⟨true, true, true, false⟩ ⟨none, []⟩ (-1) "t" =
      (⟨none, []⟩, false) :=
  (c6_log_water_entry ⟨true, true, true, false⟩ ⟨none, []⟩ (-1) "t").1
    (by decide)

/-- **C8.** `get_intake` returns 0 (it never raises: the embedding is a
total function) whenever the read fails, today's value is absent, or
the fetched value does not parse as an integer. -/
theorem c8_get_intake_fail_open (env : StoreEnv) (s : DayState)
    (h : env.getOk = false ∨ s.intake = none ∨
         ∃ v, s.intake = some v ∧ pyInt v = none) :
    get_intake env s = 0 := by
  rcases h with hg | habs | ⟨v, hv, hparse⟩
  · simp [get_intake, fb_get_intake, hg]
  · cases hg : env.getOk <;> simp [get_intake, fb_get_intake, hg, habs]
  · cases hg : env.getOk <;> simp [get_intake, fb_get_intake, hg, hv, hparse]

/-- Witness for C8: no ledger entry for today yields 0. -/
theorem c8_get_intake_fail_open_witness :
    get_intake ⟨true, true, true, false⟩ ⟨none, []⟩ = 0 :=
  c8_get_intake_fail_open ⟨true, true, true, false⟩ ⟨none, []⟩
    (Or.inr (Or.inl rfl))

/-- **C4, counterexample.** `reset_intake` does NOT return whether the
intake write succeeded and is not equivalent to `update_intake` with 0:
when the patch fails but the delete goes through, it returns `True`
while `update_intake(u, 0)` returns `False` and the intake is left at
its old value 500, so the subsequent `get_intake` returns 500, not 0. -/
theorem c4_reset_intake_cex :
    (reset_intake ⟨true, false, true, false⟩ true
      ⟨some (.jint 500), []⟩).2 = true ∧
    (update_intake ⟨true, false, true, false⟩ ⟨some (.jint 500), []⟩ 0).2
      = false ∧
    get_intake ⟨true, false, true, false⟩
      (reset_intake ⟨true, false, true, false⟩ true
        ⟨some (.jint 500), []⟩).1 = 500 := by
  refine ⟨rfl, rfl, ?_⟩
  simp [reset_intake, get_intake, fb_get_intake, update_intake, pyInt]

/-- **C4, amended.** When the patch succeeds and the delete call does
not raise: if the store applies the DELETE (2xx), `reset_intake` equals
`update_intake` with 0 followed by clearing today's `log_entries`, it
returns `True`, and a subsequent `get_intake` returns 0; but if the
store rejects the DELETE (non-2xx, still no exception), `reset_intake`
returns `True` all the same and `log_entries` stays intact, because the
source never checks the DELETE's status.  In general the returned
boolean reflects only whether the `requests.delete` call raised; both
the patch result and the DELETE status are ignored. -/
theorem c4_reset_intake_amended (env : StoreEnv) (s : DayState)
    (hp : env.patchOk = true) (hd : env.deleteThrows = false) :
    (reset_intake env true s =
        ({ (update_intake env s 0).1 with logEntries := [] }, true) ∧
      get_intake env (reset_intake env true s).1 = 0) ∧
    (reset_intake env false s).2 = true ∧
    (reset_intake env false s).1.logEntries = s.logEntries := by
  refine ⟨⟨?_, ?_⟩, ?_, ?_⟩
  · simp [reset_intake, update_intake, hp, hd]
  · cases hg : env.getOk <;>
      simp [reset_intake, get_intake, fb_get_intake, hp, hd, hg, pyInt]
  · simp [reset_intake, hd]
  · simp [reset_intake, hp, hd]

/-- Witness for the amended C4 on a day with 500 ml logged, a store
that accepts the patch, and a delete call that does not raise. -/
theorem c4_reset_intake_amended_witness :
    (reset_intake ⟨true, true, true, false⟩ true
        ⟨some (.jint 500), [⟨250, "t1"⟩]⟩ =
      ({ (update_intake ⟨true, true, true, false⟩
            ⟨some (.jint 500), [⟨250, "t1"⟩]⟩ 0).1 with logEntries := [] },
        true) ∧
      get_intake ⟨true, true, true, false⟩
        (reset_intake ⟨true, true, true, false⟩ true
          ⟨some (.jint 500), [⟨250, "t1"⟩]⟩).1 = 0) ∧
    (reset_intake ⟨true, true, true, false⟩ false
      ⟨some (.jint 500), [⟨250, "t1"⟩]⟩).2 = true ∧
    (reset_intake ⟨true, true, true, false⟩ false
        ⟨some (.jint 500), [⟨250, "t1"⟩]⟩).1.logEntries =
      (⟨some (.jint 500), [⟨250, "t1"⟩]⟩ : DayState).logEntries :=
  c4_reset_intake_amended ⟨true, true, true, false⟩
    ⟨some (.jint 500), [⟨250, "t1"⟩]⟩ rfl rfl

/-- Sorting the key list `today, today - 1, ...` ascending reverses it. -/
theorem get_history_keys_sorted (today : ℤ) (days : ℕ) :
    List.insertionSort (· ≤ ·) (historyKeys today days) =
      (historyKeys today days).reverse := by
  refine List.eq_of_perm_of_sorted
    ((List.perm_insertionSort _ _).trans (List.reverse_perm _).symm)
    (List.sorted_insertionSort _ _) ?_
  rw [List.Sorted, List.pairwise_reverse, historyKeys, List.pairwise_map]
  exact (List.pairwise_lt_range days).imp (fun hab => by omega)

/-- **C2.** For every per-date read oracle, every `today` and every
`n ≥ 1`, `get_history` returns exactly `n` entries, keyed by the `n`
most recent consecutive dates ending today — `today - (n-1), ...,
today - 1, today` in ascending (oldest-first) order — each value being
that single date's independently fetched intake (`historyValue`, 0
when the date is absent or that one read failed), so a partial failure
affects only its own day's value. -/
theorem c2_get_history (fetch : ℤ → Option JVal) (today : ℤ) (n : ℕ)
    (hn : 1 ≤ n) :
    get_history fetch today n =
      ((List.range n).map (fun i : ℕ => today - (i : ℤ))).reverse.map
        (fun d => (d, historyValue (fetch d))) ∧
    (get_history fetch today n).length = n := by
  have hmain : get_history fetch today n =
      ((List.range n).map (fun i : ℕ => today - (i : ℤ))).reverse.map
        (fun d => (d, historyValue (fetch d))) := by
    unfold get_history
    rw [get_history_keys_sorted, historyKeys]
  refine ⟨hmain, ?_⟩
  rw [hmain, List.length_map, List.length_reverse, List.length_map,
    List.length_range]

/-- Witness for C2 at `n = 7` with every read failing: seven entries,
dates ascending and ending today, every value 0. -/
theorem c2_get_history_witness :
    get_history (fun _ => none) 0 7 =
      ((List.range 7).map (fun i : ℕ => (0 : ℤ) - (i : ℤ))).reverse.map
        (fun d => (d, historyValue ((fun _ : ℤ => (none : Option JVal)) d))) ∧
    (get_history (fun _ => none) 0 7).length = 7 :=
  c2_get_history (fun _ => none) 0 7 (by decide)

/-- **C9.** Every value in the table returned by `get_history` is
non-negative, for every oracle (including ones serving negative or
malformed stored values): each value passes through `max(0, ·)`. -/
theorem c9_get_history_nonneg (fetch : ℤ → Option JVal) (today : ℤ)
    (n : ℕ) (p : ℤ × ℤ) (hp : p ∈ get_history fetch today n) :
    0 ≤ p.2 := by
  unfold get_history at hp
  rcases List.mem_map.mp hp with ⟨d, _, rfl⟩
  exact le_max_left 0 _

/-- Witness for C9: a stored value of -5 is served as 0. -/
theorem c9_get_history_nonneg_witness :
    (0 : ℤ) ≤ (((0 : ℤ), (0 : ℤ)) : ℤ × ℤ).2 :=
  c9_get_history_nonneg (fun _ => some (.jint (-5))) 0 1 ((0 : ℤ), (0 : ℤ))
    (by simp [get_history, historyValue, pyInt, List.insertionSort])

/-- Clamping after `min (· , 100)` is the same as the two-sided clamp. -/
theorem render_bottle_clamp_min (x : ℚ) :
    render_bottle_clamp (min x 100) = min (max x 0) 100 := by
  rcases le_total x 0 with h0 | h0 <;> rcases le_total x 100 with h1 | h1 <;>
    simp [render_bottle_clamp, min_def, max_def] <;> split_ifs <;> linarith

/-- **C3, counterexample.** At `intake = 100, goal = 0` the claim says
the computation yields `percent_of_goal_spec 100 0 = 0`; the code
instead raises `ZeroDivisionError` at `intake / goal` (the embedding's
`none`) — there is no `goal ≤ 0` guard in `view_dashboard`. -/
theorem c3_percent_goal_zero_cex :
    displayed_percent 100 0 = none ∧
    percent_of_goal_spec 100 0 = 0 ∧
    displayed_percent 100 0 ≠ some (percent_of_goal_spec 100 0) := by
  refine ⟨rfl, ?_, by decide⟩
  simp [percent_of_goal_spec]

/-- **C3, amended.** Whenever `goal > 0`, the displayed percent —
`view_dashboard`'s `min(intake/goal*100, 100)` composed with
`render_bottle`'s clamp — equals `clamp(intake/goal*100, 0, 100)`, the
spec's `percent_of_goal`; in particular the quoted example values
(0→0, 2500→100, 3000→100, 1250→50 of a 2500 goal) hold.  For
`goal = 0` the code raises `ZeroDivisionError` instead of returning
0. -/
theorem c3_displayed_percent_amended (intake goal : ℚ) (h : 0 < goal) :
    displayed_percent intake goal = some (percent_of_goal_spec intake goal) := by
  have hne : goal ≠ 0 := ne_of_gt h
  unfold displayed_percent view_dashboard_percent percent_of_goal_spec
  rw [if_neg hne, if_pos h]
  show some (render_bottle_clamp (min (intake / goal * 100) 100)) = _
  rw [render_bottle_clamp_min]

/-- Witness for the amended C3: 1250 of a 2500 ml goal displays 50%. -/
theorem c3_displayed_percent_amended_witness :
    displayed_percent 1250 2500 = some 50 := by
  rw [c3_displayed_percent_amended 1250 2500 (by norm_num)]
  norm_num [percent_of_goal_spec]

/-- **C7.** Whenever the store is unreachable or no profile record
exists, `get_profile` returns (totally — it cannot raise) the
documented defaults: age group `"19-50"`, the store-configured default
goal for that age group (`AGE_GROUP_DEFAULTS["19-50"] = 2500`), and the
`"Light"` theme. -/
theorem c7_get_profile_defaults (getOk : Bool) (node : Option ProfileNode)
    (h : getOk = false ∨ node = none) :
    get_profile (fetch_profile getOk node) =
      ⟨"19-50", ageGroupDefault "19-50", "Light"⟩ := by
  have hnone : fetch_profile getOk node = none := by
    rcases h with hg | hn
    · simp [fetch_profile, hg]
    · cases getOk <;> simp [fetch_profile, hn]
  rw [hnone]
  decide

/-- Witness for C7: an unreachable store hides even a fully populated
profile record, and the defaults come back. -/
theorem c7_get_profile_defaults_witness :
    get_profile (fetch_profile false
        (some ⟨some "65+", some (.jint 99), some "Dark"⟩)) =
      ⟨"19-50", ageGroupDefault "19-50", "Light"⟩ :=
  c7_get_profile_defaults false (some ⟨some "65+", some (.jint 99), some "Dark"⟩)
    (Or.inl rfl)

/-- **C10, counterexample.** The unqualified claim is false: when the
`users` read fails (`avail = false`), `find_user`'s `isinstance` guard
reports "no user found", so even though a record with username
`"alice"` already exists, `create_user` does NOT return the `"EXISTS"`
sentinel — it attempts the POST and writes a duplicate record. -/
theorem c10_create_user_cex :
    create_user false (.ok "k2")
        [("k1", ⟨"alice", "pw", "d0", ⟨"19-50", 2500, "Light"⟩⟩)]
        "alice" "x" "d1" =
      (.created "k2",
        [("k1", ⟨"alice", "pw", "d0", ⟨"19-50", 2500, "Light"⟩⟩),
         ("k2", newUserRec "alice" "x" "d1")]) ∧
    (create_user false (.ok "k2")
        [("k1", ⟨"alice", "pw", "d0", ⟨"19-50", 2500, "Light"⟩⟩)]
        "alice" "x" "d1").1 ≠ .existsRes := by
  constructor <;> decide

/-- **C10, amended.** `create_user` returns `None` and writes nothing
when the username or password is empty; when the `users` node is
readable and its keys are the store's non-empty push ids, it returns
the `"EXISTS"` sentinel and writes nothing when some record already
carries the requested username (exact, case-sensitive match), and only
otherwise attempts the POST that creates the record.  (When the `users`
read fails, the duplicate check is silently skipped and the POST is
attempted regardless.) -/
theorem c10_create_user_checks (avail : Bool) (post : PostResult)
    (store : List (String × UserRec)) (u p today : String) :
    (u = "" ∨ p = "" → create_user avail post store u p today = (.noneRes, store)) ∧
    (avail = true → (∀ k r, (k, r) ∈ store → k ≠ "") → ¬(u = "" ∨ p = "") →
      (∃ k r, (k, r) ∈ store ∧ r.username = u) →
      create_user avail post store u p today = (.existsRes, store)) ∧
    (avail = true → ¬(u = "" ∨ p = "") →
      (∀ k r, (k, r) ∈ store → r.username ≠ u) →
      create_user avail post store u p today =
        attempt_create post store (newUserRec u p today)) := by
  refine ⟨fun he => by simp [create_user, he], fun hav hkeys hne hex => ?_,
    fun hav hne hnomatch => ?_⟩
  · obtain ⟨k, r, hmem, huser⟩ := hex
    have hfind : store.find? (fun q => q.2.username == u) ≠ none := by
      intro hnone
      rw [List.find?_eq_none] at hnone
      exact absurd (by simp [huser]) (hnone (k, r) hmem)
    obtain ⟨⟨k₀, r₀⟩, hfind₀⟩ := Option.ne_none_iff_exists.mp hfind
    have hk₀ : k₀ ≠ "" := hkeys k₀ r₀ (List.mem_of_find?_eq_some hfind₀.symm)
    simp only [create_user, if_neg hne, find_user, hav, if_pos rfl,
      ← hfind₀]
    simp [hk₀]
  · have hfind : store.find? (fun q => q.2.username == u) = none := by
      rw [List.find?_eq_none]
      intro q hq
      simp only [beq_iff_eq]
      exact hnomatch q.1 q.2 hq
    simp [create_user, hne, find_user, hav, hfind]

/-- Witness for C10: "alice" already exists under push id "k1", so a
second signup with that username returns the sentinel and leaves the
store unchanged. -/
theorem c10_create_user_checks_witness :
    create_user true .httpFail
        [("k1", ⟨"alice", "pw", "d0", ⟨"19-50", 2500, "Light"⟩⟩)]
        "alice" "x" "d1" =
      (.existsRes, [("k1", ⟨"alice", "pw", "d0", ⟨"19-50", 2500, "Light"⟩⟩)]) :=
  (c10_create_user_checks true .httpFail
      [("k1", ⟨"alice", "pw", "d0", ⟨"19-50", 2500, "Light"⟩⟩)]
      "alice" "x" "d1").2.1 rfl
    (by
      intro k r hmem
      rw [List.mem_singleton] at hmem
      cases hmem
      decide)
    (by decide)
    ⟨"k1", ⟨"alice", "pw", "d0", ⟨"19-50", 2500, "Light"⟩⟩,
      List.mem_singleton.mpr rfl, rfl⟩

end WaterBuddy
